import Mathlib

/-!
Shallow embedding of the Sunburn Monitor firmware (src/unnamed/part_000).

The firmware is a four-state controller (PowerOff, Config, Running,
Completed) driving a UV exposure budget.  The definitions below are
translated directly from the C source: the lookup tables, the EEPROM
first-boot seeding in setup(), the per-minute sampling cycle of the
STATE_RUNNING case of loop(), the STATE_COMPLETED and STATE_POWER_OFF
cases, and the doConfig() button/event loop.  Machine integers are
modelled as Nat/Int (no value here approaches a width bound: the only
16-bit product is at most 500 * 45 = 22500), the float burn budget as
a rational, and C array indexing totally via Option.
-/

namespace Sunburn

/-- EEPROM address of the first checkbyte (EE_CHECKBYTE_1 in the source). -/
def EE_CHECKBYTE_1 : Nat := 125

/-- EEPROM address of the second checkbyte (EE_CHECKBYTE_2 in the source). -/
def EE_CHECKBYTE_2 : Nat := 126

/-- EEPROM address of the stored skin type (EE_SKIN_TYPE in the source). -/
def EE_SKIN_TYPE : Nat := 127

/-- Maximum running time in minutes (MAX_RUNNING_TIME, 12 hours). -/
def MAX_RUNNING_TIME : Nat := 720

/-- Config-mode inactivity timeout in milliseconds (SET_TIMEOUT). -/
def SET_TIMEOUT : Nat := 30000

/-- Threshold in milliseconds separating a short from a long press (LONG_CLICK_MS). -/
def LONG_CLICK_MS : Nat := 1000

/-- Low battery warning voltage, scaled by 100 (MIN_BATT_VOLTS). -/
def MIN_BATT_VOLTS : Int := 270

/-- The four states of the device state machine (STATE_POWER_OFF,
STATE_CONFIG, STATE_RUNNING, STATE_COMPLETED). -/
inductive DeviceState where
  | powerOff
  | config
  | running
  | completed
  deriving DecidableEq, Repr

/-- Lookup table of sunburn minutes per UVI, indexed by skin type:
`static uint16_t skinTypeMinutesPerUVI[6] = {0, 67, 100, 200, 400, 500};`.
The C array has exactly six entries, valid indices 0..5. -/
def skinTypeMinutesPerUVI : List Nat := [0, 67, 100, 200, 400, 500]

/-- Lookup table mapping SPF set-button press count to SPF multiplier:
`static uint8_t pressesPerSPF[6] = {0, 1, 10, 15, 30, 45};`.
The C array has exactly six entries, valid indices 0..5. -/
def pressesPerSPF : List Nat := [0, 1, 10, 15, 30, 45]

/-- Embedding of calculateTimeToBurn:
`minutesToBurn = skinTypeMinutesPerUVI[skinType] * uint16_t(pressesPerSPF[index]);`
Both C array accesses are made total by indexing through Option, so an
out-of-bounds read shows as `none`. -/
def calculateTimeToBurn (skinType : Nat) (index : Nat) : Option ℚ :=
  match skinTypeMinutesPerUVI.get? skinType, pressesPerSPF.get? index with
  | some m, some p => some ((m * p : Nat) : ℚ)
  | _, _ => none

/-- Observable effects performed by one pass of the state machine, in
program order. -/
inductive Effect where
  | sampleVcc (reading : Int)
  | toneLowBattery
  | toneShortBeep
  | sampleUv (uvi : ℚ)
  | alarm
  | sensorPowerOff
  | timerReset
  | shutdownTone
  | sleep
  deriving DecidableEq, Repr

/-- The mutable state read and written by the running-state minute cycle. -/
structure RunState where
  runningTimer : Nat
  minutesToBurn : ℚ
  vcc : Int
  state : DeviceState
  deriving DecidableEq, Repr

/-- One per-minute cycle of the STATE_RUNNING case of loop(), entered when
`wdtSleepCount == 15`.  Mirrors the source order: increment runningTimer,
test it against MAX_RUNNING_TIME (power off, skipping the sample), test the
power button for a long press (power off, skipping the sample), otherwise
sample the supply voltage, emit the low-battery tone when
`vccVoltage <= MIN_BATT_VOLTS` else the short beep, take a UV measurement
(doMeasure subtracts `1 * UVindex` from minutesToBurn), and enter
STATE_COMPLETED exactly when `minutesToBurn <= 0`. -/
def minuteTick (powerLongPress : Bool) (vccReading : Int) (uvIndex : ℚ)
    (s : RunState) : RunState × List Effect :=
  let rt := s.runningTimer + 1
  if rt = MAX_RUNNING_TIME then
    ({ s with runningTimer := rt, state := DeviceState.powerOff }, [])
  else if powerLongPress then
    ({ s with runningTimer := rt, state := DeviceState.powerOff }, [])
  else
    let tone := if vccReading ≤ MIN_BATT_VOLTS then Effect.toneLowBattery
                else Effect.toneShortBeep
    let budget := s.minutesToBurn - uvIndex
    let effs := [Effect.sampleVcc vccReading, tone, Effect.sampleUv uvIndex]
    if budget ≤ 0 then
      ({ runningTimer := rt, minutesToBurn := budget, vcc := vccReading,
         state := DeviceState.completed }, effs)
    else
      ({ runningTimer := rt, minutesToBurn := budget, vcc := vccReading,
         state := DeviceState.running }, effs)

/-- Iterate `minuteTick` (with no power-button press and a fixed UV index)
for a number of minutes, stopping as soon as the state leaves
STATE_RUNNING, as loop() does. -/
def runMinutes (v : Int) (u : ℚ) : Nat → RunState → RunState
  | 0, s => s
  | n + 1, s =>
      if s.state = DeviceState.running then
        runMinutes v u n (minuteTick false v u s).1
      else s

/-- The STATE_COMPLETED case of loop(): play the alarm, then go to
STATE_POWER_OFF.  The burn budget is not touched. -/
def completedCase (s : RunState) : RunState × List Effect :=
  ({ s with state := DeviceState.powerOff }, [Effect.alarm])

/-- The STATE_POWER_OFF case of loop(): power down the UV sensor, reset
runningTimer to 0, play the shutdown tone, sleep until the edge interrupt
fires, then set the state to STATE_CONFIG.  The effect list records the
program order of the actions around the sleep. -/
def powerOffCase (s : RunState) : RunState × List Effect :=
  ({ s with runningTimer := 0, state := DeviceState.config },
   [Effect.sensorPowerOff, Effect.timerReset, Effect.shutdownTone, Effect.sleep])

/-- Local state of the doConfig() loop: the inactivity timestamp
(setTimer), the SPF press count (spfIndex, initialised to 1), the
temporary skin class (tempSkinType, initialised from the global skinType)
and the first-skin-press flag (skinTypeNotPressed). -/
structure CfgState where
  setTimer : Nat
  spfIndex : Nat
  tempSkinType : Nat
  skinTypeNotPressed : Bool
  deriving DecidableEq, Repr

/-- Button events observed by the doConfig() loop, with absolute
millisecond timestamps.  A set-button event carries how long the button
was held before release; the skin button acts on its falling edge only. -/
inductive CEvent where
  | setPress (time : Nat) (hold : Nat)
  | skinPress (time : Nat)
  deriving DecidableEq, Repr

/-- Result of one doConfig() call: the next machine state, the (possibly
updated) global skinType, the list of EEPROM writes performed, the burn
budget computed by calculateTimeToBurn on commit, and the final SPF
index. -/
structure ConfigResult where
  state : DeviceState
  skinType : Nat
  writes : List (Nat × Nat)
  budget : Option ℚ
  spfIndex : Nat
  deriving DecidableEq, Repr

/-- The result of the set-mode timer expiring: drop out of the while loop
and go to STATE_POWER_OFF, leaving everything else untouched. -/
def timeoutResult (skinType : Nat) (cs : CfgState) : ConfigResult :=
  { state := DeviceState.powerOff, skinType := skinType, writes := [],
    budget := none, spfIndex := cs.spfIndex }

/-- A short press of the set button: `if (spfIndex < 6) spfIndex++; else
spfIndex = 1;`.  The inactivity timer was reset at the press and again at
the release, so it ends at press time plus hold time. -/
def setShortStep (cs : CfgState) (t hold : Nat) : CfgState :=
  { cs with setTimer := t + hold,
            spfIndex := if cs.spfIndex < 6 then cs.spfIndex + 1 else 1 }

/-- A press of the skin button: on the first press the count restarts
from 0, then `if (tempSkinType < 6) tempSkinType++; else tempSkinType = 1;`.
The inactivity timer is reset to the press time. -/
def skinPressStep (cs : CfgState) (t : Nat) : CfgState :=
  let temp0 := if cs.skinTypeNotPressed then 0 else cs.tempSkinType
  { cs with setTimer := t,
            tempSkinType := if temp0 < 6 then temp0 + 1 else 1,
            skinTypeNotPressed := false }

/-- The long-press commit branch of doConfig(): write the skin type to
EEPROM only when it differs from the stored one, compute the burn budget
with calculateTimeToBurn(spfIndex), and enter STATE_RUNNING. -/
def commitStep (skinType : Nat) (cs : CfgState) : ConfigResult :=
  if cs.tempSkinType ≠ skinType then
    { state := DeviceState.running, skinType := cs.tempSkinType,
      writes := [(EE_SKIN_TYPE, cs.tempSkinType)],
      budget := calculateTimeToBurn cs.tempSkinType cs.spfIndex,
      spfIndex := cs.spfIndex }
  else
    { state := DeviceState.running, skinType := skinType, writes := [],
      budget := calculateTimeToBurn skinType cs.spfIndex,
      spfIndex := cs.spfIndex }

/-- The while loop of doConfig() over a time-ordered list of button
events.  The loop spins while `millis() - setTimer < SET_TIMEOUT`, so an
event is handled only if it arrives strictly within the window measured
from the last reset; otherwise the loop has already exited to
STATE_POWER_OFF.  A set press held for at least LONG_CLICK_MS commits and
returns; a shorter one cycles the SPF index; a skin press cycles the
temporary skin class. -/
def doConfigLoop (skinType : Nat) (cs : CfgState) : List CEvent → ConfigResult
  | [] => timeoutResult skinType cs
  | CEvent.setPress t hold :: rest =>
      if t - cs.setTimer < SET_TIMEOUT then
        if hold < LONG_CLICK_MS then
          doConfigLoop skinType (setShortStep cs t hold) rest
        else commitStep skinType cs
      else timeoutResult skinType cs
  | CEvent.skinPress t :: rest =>
      if t - cs.setTimer < SET_TIMEOUT then
        doConfigLoop skinType (skinPressStep cs t) rest
      else timeoutResult skinType cs

/-- Entry to doConfig(): spfIndex starts at 1, tempSkinType is copied
from the global skinType, the first-press flag is set, and the inactivity
timer starts at the entry time. -/
def doConfig (skinType : Nat) (t0 : Nat) (events : List CEvent) : ConfigResult :=
  doConfigLoop skinType
    { setTimer := t0, spfIndex := 1, tempSkinType := skinType,
      skinTypeNotPressed := true } events

/-- Initial value of the global `uint8_t skinType;` — a C object with
static storage duration and no initialiser is zero-initialised. -/
def skinTypeInit : Nat := 0

/-- Result of the EEPROM portion of setup(): the persistent store after
setup, the in-RAM session skinType, and the writes performed. -/
structure SetupResult where
  store : Nat → Nat
  skinType : Nat
  writes : List (Nat × Nat)

/-- The EEPROM first-boot logic of setup(): if both checkbytes read 0xBA
and 0xDA, load skinType from EE_SKIN_TYPE; otherwise write the checkbytes
and write 1 to EE_SKIN_TYPE.  On the seeding branch the in-RAM skinType
is not assigned, so it keeps its zero-initialised value. -/
def setupEeprom (store : Nat → Nat) : SetupResult :=
  if store EE_CHECKBYTE_1 = 0xBA ∧ store EE_CHECKBYTE_2 = 0xDA then
    { store := store, skinType := store EE_SKIN_TYPE, writes := [] }
  else
    { store := fun a =>
        if a = EE_SKIN_TYPE then 1
        else if a = EE_CHECKBYTE_2 then 0xDA
        else if a = EE_CHECKBYTE_1 then 0xBA
        else store a,
      skinType := skinTypeInit,
      writes := [(EE_CHECKBYTE_1, 0xBA), (EE_CHECKBYTE_2, 0xDA), (EE_SKIN_TYPE, 1)] }

/-! Helper lemmas about the running-state minute cycle. -/

/-- When the incremented running timer hits MAX_RUNNING_TIME, the minute
cycle powers off without sampling, for any button input and readings. -/
theorem minuteTick_ceiling (p : Bool) (v : Int) (u : ℚ) (s : RunState)
    (h : s.runningTimer = 719) :
    minuteTick p v u s =
      ({ s with runningTimer := 720, state := DeviceState.powerOff }, []) := by
  simp [minuteTick, MAX_RUNNING_TIME, h]

/-- Below the ceiling and with no power-button long press, the minute
cycle samples the battery, beeps, samples UV, subtracts it from the
budget, and completes exactly on a non-positive result. -/
theorem minuteTick_sample (v : Int) (u : ℚ) (s : RunState)
    (h : s.runningTimer + 1 ≠ MAX_RUNNING_TIME) :
    minuteTick false v u s =
      ({ runningTimer := s.runningTimer + 1,
         minutesToBurn := s.minutesToBurn - u, vcc := v,
         state := if s.minutesToBurn - u ≤ 0 then DeviceState.completed
                  else DeviceState.running },
       [Effect.sampleVcc v,
        if v ≤ MIN_BATT_VOLTS then Effect.toneLowBattery else Effect.toneShortBeep,
        Effect.sampleUv u]) := by
  by_cases hb : s.minutesToBurn - u ≤ 0 <;> simp [minuteTick, h, hb]

/-- Unfolding lemma: zero iterations leave the state unchanged. -/
theorem runMinutes_zero (v : Int) (u : ℚ) (s : RunState) : runMinutes v u 0 s = s := rfl

/-- Unfolding lemma for one more iteration of the minute loop. -/
theorem runMinutes_succ (v : Int) (u : ℚ) (n : Nat) (s : RunState) :
    runMinutes v u (n + 1) s =
      if s.state = DeviceState.running then
        runMinutes v u n (minuteTick false v u s).1
      else s := rfl

/-- Running with UV index 0 and a positive budget for exactly the number
of minutes left to the session ceiling ends in PowerOff. -/
theorem runMinutes_to_ceiling (v : Int) :
    ∀ (n : Nat) (s : RunState), 0 < n → s.state = DeviceState.running →
      0 < s.minutesToBurn → s.runningTimer + n = 720 →
      (runMinutes v 0 n s).state = DeviceState.powerOff := by
  intro n
  induction n with
  | zero => intro s hn _ _ _; exact absurd hn (by decide)
  | succ m ih =>
      intro s _ hs hb ht
      rw [runMinutes_succ, if_pos hs]
      rcases Nat.eq_zero_or_pos m with hm | hm
      · subst hm
        have h719 : s.runningTimer = 719 := by omega
        rw [minuteTick_ceiling false v 0 s h719]
        rfl
      · have hne : s.runningTimer + 1 ≠ MAX_RUNNING_TIME := by
          simp only [MAX_RUNNING_TIME]
          omega
        have hbu : ¬ s.minutesToBurn - 0 ≤ 0 := by simpa using hb
        rw [minuteTick_sample v 0 s hne, if_neg hbu]
        refine ih _ hm rfl ?_ ?_
        · show 0 < s.minutesToBurn - 0
          simpa using hb
        · show s.runningTimer + 1 + m = 720
          omega

/-! Theorems settling the claims. -/

/-- C1: the claim says every lookup in calculateTimeToBurn stays in
bounds for skin classes 1..6 and every SPF index reachable in Config.
The code violates it: both C arrays have six entries (indices 0..5),
skin class 6 and SPF index 6 are reachable in Config, and indexing
either table at 6 returns none in the total embedding.  The concrete
session below commits skin class 6 and gets no budget. -/
theorem c1_lookup_out_of_bounds :
    skinTypeMinutesPerUVI.length = 6 ∧
    pressesPerSPF.length = 6 ∧
    skinTypeMinutesPerUVI.get? 6 = none ∧
    pressesPerSPF.get? 6 = none ∧
    calculateTimeToBurn 6 1 = none ∧
    (doConfig 1 0 [CEvent.skinPress 10, CEvent.skinPress 20, CEvent.skinPress 30,
        CEvent.skinPress 40, CEvent.skinPress 50, CEvent.skinPress 60,
        CEvent.setPress 70 1500]).skinType = 6 ∧
    (doConfig 1 0 [CEvent.skinPress 10, CEvent.skinPress 20, CEvent.skinPress 30,
        CEvent.skinPress 40, CEvent.skinPress 50, CEvent.skinPress 60,
        CEvent.setPress 70 1500]).budget = none := by decide

/-- C2: the skin control does wrap 1..6 back to 1 (seven presses from a
stored class 3 end at class 1), but the set control does not wrap from 5
to 1: after five short presses from the initial index 1 the SPF index is
6, one past the last valid pressesPerSPF entry, and a commit there
produces no budget; only the sixth press wraps it to 1. -/
theorem c2_press_cycling :
    (doConfig 3 0 [CEvent.setPress 10 0, CEvent.setPress 20 0, CEvent.setPress 30 0,
        CEvent.setPress 40 0, CEvent.setPress 50 0,
        CEvent.setPress 60 1500]).spfIndex = 6 ∧
    (doConfig 3 0 [CEvent.setPress 10 0, CEvent.setPress 20 0, CEvent.setPress 30 0,
        CEvent.setPress 40 0, CEvent.setPress 50 0,
        CEvent.setPress 60 1500]).budget = none ∧
    (doConfig 3 0 [CEvent.setPress 10 0, CEvent.setPress 20 0, CEvent.setPress 30 0,
        CEvent.setPress 40 0, CEvent.setPress 50 0, CEvent.setPress 60 0,
        CEvent.setPress 70 1500]).spfIndex = 1 ∧
    (doConfig 3 0 [CEvent.skinPress 10, CEvent.skinPress 20, CEvent.skinPress 30,
        CEvent.skinPress 40, CEvent.skinPress 50, CEvent.skinPress 60,
        CEvent.skinPress 70, CEvent.setPress 80 1500]).skinType = 1 := by decide

/-- C3: the initial budget is minutesPerUvi[skinClass] * spfMultiplier
wherever both lookups are defined — skin class 3 with SPF 15 gives 3000
minutes — but the code falls off the table for skin class 6, where the
claim still demands a product. -/
theorem c3_initial_budget :
    calculateTimeToBurn 3 3 = some 3000 ∧
    calculateTimeToBurn 1 1 = some 67 ∧
    calculateTimeToBurn 2 2 = some 1000 ∧
    calculateTimeToBurn 4 4 = some 12000 ∧
    calculateTimeToBurn 5 5 = some 22500 ∧
    calculateTimeToBurn 6 3 = none := by decide

/-- C4: when the running timer reaches 720 the minute cycle transitions
to PowerOff with no sampling effects and an untouched budget, whatever
the budget and inputs are, and a 720-minute session at UV index 0 ends
in PowerOff, not Completed. -/
theorem c4_session_ceiling :
    (∀ (s : RunState) (p : Bool) (v : Int) (u : ℚ), s.runningTimer = 719 →
      (minuteTick p v u s).1.state = DeviceState.powerOff ∧
      (minuteTick p v u s).2 = [] ∧
      (minuteTick p v u s).1.minutesToBurn = s.minutesToBurn ∧
      (minuteTick p v u s).1.state ≠ DeviceState.completed) ∧
    (∀ (b : ℚ) (v : Int), 0 < b →
      (runMinutes v 0 720
        { runningTimer := 0, minutesToBurn := b, vcc := v,
          state := DeviceState.running }).state = DeviceState.powerOff) := by
  constructor
  · intro s p v u h
    rw [minuteTick_ceiling p v u s h]
    exact ⟨rfl, rfl, rfl, by simp⟩
  · intro b v hb
    exact runMinutes_to_ceiling v 720 _ (by decide) rfl hb rfl

/-- Witness for C4 at a concrete state: budget 100 at minute 719 powers
off, and a full simulated session from minute 0 powers off. -/
theorem c4_session_ceiling_witness :
    (minuteTick false 300 0
      { runningTimer := 719, minutesToBurn := 100, vcc := 300,
        state := DeviceState.running }).1.state = DeviceState.powerOff ∧
    (runMinutes 300 0 720
      { runningTimer := 0, minutesToBurn := 100, vcc := 300,
        state := DeviceState.running }).state = DeviceState.powerOff :=
  ⟨(c4_session_ceiling.1 _ false 300 0 rfl).1,
   c4_session_ceiling.2 100 300 (by norm_num)⟩

/-- C5: at a sampling point (below the ceiling, no power press) the
machine enters Completed exactly when the post-sample budget is ≤ 0, and
afterwards neither the Completed case nor the PowerOff case of the loop
changes the budget. -/
theorem c5_completion_boundary :
    (∀ (s : RunState) (v : Int) (u : ℚ), s.runningTimer + 1 ≠ MAX_RUNNING_TIME →
      ((minuteTick false v u s).1.state = DeviceState.completed ↔
        s.minutesToBurn - u ≤ 0)) ∧
    (∀ s : RunState, (completedCase s).1.state = DeviceState.powerOff ∧
      (completedCase s).1.minutesToBurn = s.minutesToBurn) ∧
    (∀ s : RunState, (powerOffCase s).1.minutesToBurn = s.minutesToBurn) := by
  refine ⟨?_, fun s => ⟨rfl, rfl⟩, fun s => rfl⟩
  intro s v u h
  rw [minuteTick_sample v u s h]
  by_cases hb : s.minutesToBurn - u ≤ 0
  · simp [hb]
  · simp [hb]

/-- Witness for C5: a post-sample budget of exactly 0 and one of -1 both
complete. -/
theorem c5_completion_boundary_witness :
    (minuteTick false 300 5
      { runningTimer := 0, minutesToBurn := 5, vcc := 300,
        state := DeviceState.running }).1.state = DeviceState.completed ∧
    (minuteTick false 300 6
      { runningTimer := 0, minutesToBurn := 5, vcc := 300,
        state := DeviceState.running }).1.state = DeviceState.completed :=
  ⟨(c5_completion_boundary.1 _ 300 5 (by decide)).mpr (by norm_num),
   (c5_completion_boundary.1 _ 300 6 (by decide)).mpr (by norm_num)⟩

/-- C6: on a first boot (checkbytes do not match) setup seeds the store
with the checkbytes and skin class 1, but the in-RAM session skinType
keeps its zero-initialised value 0, not 1 as the claim states; a commit
in that session with untouched controls computes a zero burn budget. -/
theorem c6_first_boot :
    (setupEeprom (fun _ => 0)).writes =
      [(EE_CHECKBYTE_1, 0xBA), (EE_CHECKBYTE_2, 0xDA), (EE_SKIN_TYPE, 1)] ∧
    (setupEeprom (fun _ => 0)).store EE_SKIN_TYPE = 1 ∧
    (setupEeprom (fun _ => 0)).store EE_CHECKBYTE_1 = 0xBA ∧
    (setupEeprom (fun _ => 0)).store EE_CHECKBYTE_2 = 0xDA ∧
    (setupEeprom (fun _ => 0)).skinType = 0 ∧
    (setupEeprom (fun _ => 0)).skinType ≠ 1 ∧
    (doConfig (setupEeprom (fun _ => 0)).skinType 0
      [CEvent.setPress 10 1500]).budget = some 0 := by decide

/-- C7 amended: each sampling cycle samples the supply voltage and emits
the low-battery tone exactly when the reading is less than or equal to
MIN_BATT_VOLTS, the short beep exactly when it is above — so a reading
equal to the threshold gets the low-battery tone, not the short beep. -/
theorem c7_battery_tone :
    ∀ (s : RunState) (v : Int) (u : ℚ), s.runningTimer + 1 ≠ MAX_RUNNING_TIME →
      Effect.sampleVcc v ∈ (minuteTick false v u s).2 ∧
      (Effect.toneLowBattery ∈ (minuteTick false v u s).2 ↔ v ≤ MIN_BATT_VOLTS) ∧
      (Effect.toneShortBeep ∈ (minuteTick false v u s).2 ↔ MIN_BATT_VOLTS < v) := by
  intro s v u h
  rw [minuteTick_sample v u s h]
  by_cases hv : v ≤ MIN_BATT_VOLTS
  · rw [if_pos hv]
    exact ⟨by simp, by simp [hv], by simp [not_lt.mpr hv]⟩
  · rw [if_neg hv]
    exact ⟨by simp, by simp [hv], by simp [not_le.mp hv]⟩

/-- Witness for C7: a reading of 250 (below the threshold 270) produces
the low-battery tone, a reading of 280 produces the short beep. -/
theorem c7_battery_tone_witness :
    Effect.toneLowBattery ∈ (minuteTick false 250 1
      { runningTimer := 0, minutesToBurn := 100, vcc := 300,
        state := DeviceState.running }).2 ∧
    Effect.toneShortBeep ∈ (minuteTick false 280 1
      { runningTimer := 0, minutesToBurn := 100, vcc := 300,
        state := DeviceState.running }).2 :=
  ⟨((c7_battery_tone _ 250 1 (by decide)).2.1).mpr (by decide),
   ((c7_battery_tone _ 280 1 (by decide)).2.2).mpr (by decide)⟩

/-- Counterexample to C7 as stated: at a reading exactly equal to
MIN_BATT_VOLTS the cycle emits the low-battery tone and not the short
confirmation beep, because the source compares with the less-or-equal
operator. -/
theorem c7_threshold_counterexample :
    Effect.toneLowBattery ∈ (minuteTick false MIN_BATT_VOLTS 0
      { runningTimer := 0, minutesToBurn := 100, vcc := 300,
        state := DeviceState.running }).2 ∧
    Effect.toneShortBeep ∉ (minuteTick false MIN_BATT_VOLTS 0
      { runningTimer := 0, minutesToBurn := 100, vcc := 300,
        state := DeviceState.running }).2 := by
  have h := minuteTick_sample MIN_BATT_VOLTS 0
    { runningTimer := 0, minutesToBurn := 100, vcc := 300,
      state := DeviceState.running } (by decide)
  rw [h]
  constructor
  · simp
  · simp

/-- C8: a long press of the set control within the inactivity window
commits to Running; it writes nothing when the temporary skin class
equals the stored one, and otherwise performs exactly one write, of the
new class to EE_SKIN_TYPE, touching no other address. -/
theorem c8_commit_write_avoidance :
    ∀ (st : Nat) (cs : CfgState) (t hold : Nat) (rest : List CEvent),
      t - cs.setTimer < SET_TIMEOUT → LONG_CLICK_MS ≤ hold →
      (cs.tempSkinType = st →
        (doConfigLoop st cs (CEvent.setPress t hold :: rest)).writes = []) ∧
      (cs.tempSkinType ≠ st →
        (doConfigLoop st cs (CEvent.setPress t hold :: rest)).writes =
          [(EE_SKIN_TYPE, cs.tempSkinType)] ∧
        (doConfigLoop st cs (CEvent.setPress t hold :: rest)).skinType =
          cs.tempSkinType) ∧
      (∀ w ∈ (doConfigLoop st cs (CEvent.setPress t hold :: rest)).writes,
        w.1 = EE_SKIN_TYPE) ∧
      (doConfigLoop st cs (CEvent.setPress t hold :: rest)).state =
        DeviceState.running := by
  intro st cs t hold rest ht hh
  have hcommit : doConfigLoop st cs (CEvent.setPress t hold :: rest) =
      commitStep st cs := by
    simp only [doConfigLoop]
    rw [if_pos ht, if_neg (not_lt.mpr hh)]
  rw [hcommit]
  by_cases he : cs.tempSkinType = st
  · have hc : commitStep st cs =
        { state := DeviceState.running, skinType := st, writes := [],
          budget := calculateTimeToBurn st cs.spfIndex,
          spfIndex := cs.spfIndex } := by
      simp only [commitStep]
      rw [if_neg (not_not_intro he)]
    rw [hc]
    exact ⟨fun _ => rfl, fun hne => absurd he hne, by simp, rfl⟩
  · have hc : commitStep st cs =
        { state := DeviceState.running, skinType := cs.tempSkinType,
          writes := [(EE_SKIN_TYPE, cs.tempSkinType)],
          budget := calculateTimeToBurn cs.tempSkinType cs.spfIndex,
          spfIndex := cs.spfIndex } := by
      simp only [commitStep]
      rw [if_pos he]
    rw [hc]
    refine ⟨fun h => absurd h he, fun _ => ⟨rfl, rfl⟩, ?_, rfl⟩
    intro w hw
    simp only [List.mem_singleton] at hw
    rw [hw]

/-- Witness for C8: with a stored class 3, committing with an unchanged
temporary class writes nothing; committing with temporary class 4
performs exactly the single write of 4 to EE_SKIN_TYPE. -/
theorem c8_commit_write_avoidance_witness :
    (doConfigLoop 3
      { setTimer := 0, spfIndex := 1, tempSkinType := 3, skinTypeNotPressed := true }
      [CEvent.setPress 5 1000]).writes = [] ∧
    (doConfigLoop 3
      { setTimer := 0, spfIndex := 1, tempSkinType := 4, skinTypeNotPressed := false }
      [CEvent.setPress 5 1000]).writes = [(EE_SKIN_TYPE, 4)] :=
  ⟨(c8_commit_write_avoidance 3 _ 5 1000 [] (by decide) (by decide)).1 rfl,
   ((c8_commit_write_avoidance 3 _ 5 1000 [] (by decide) (by decide)).2.1
      (by decide)).1⟩

/-- C9: with no event inside the 30-second window the config loop exits
to PowerOff (an event arriving at or after the deadline is never
handled), and every handled set press, set release or skin press resets
the window to its own time. -/
theorem c9_inactivity_timeout :
    (∀ (st : Nat) (cs : CfgState),
      (doConfigLoop st cs []).state = DeviceState.powerOff) ∧
    (∀ (st : Nat) (cs : CfgState) (t hold : Nat) (rest : List CEvent),
      SET_TIMEOUT ≤ t - cs.setTimer →
      (doConfigLoop st cs (CEvent.setPress t hold :: rest)).state =
        DeviceState.powerOff) ∧
    (∀ (st : Nat) (cs : CfgState) (t : Nat) (rest : List CEvent),
      SET_TIMEOUT ≤ t - cs.setTimer →
      (doConfigLoop st cs (CEvent.skinPress t :: rest)).state =
        DeviceState.powerOff) ∧
    (∀ (st : Nat) (cs : CfgState) (t hold : Nat) (rest : List CEvent),
      t - cs.setTimer < SET_TIMEOUT → hold < LONG_CLICK_MS →
      doConfigLoop st cs (CEvent.setPress t hold :: rest) =
        doConfigLoop st (setShortStep cs t hold) rest ∧
      (setShortStep cs t hold).setTimer = t + hold) ∧
    (∀ (st : Nat) (cs : CfgState) (t : Nat) (rest : List CEvent),
      t - cs.setTimer < SET_TIMEOUT →
      doConfigLoop st cs (CEvent.skinPress t :: rest) =
        doConfigLoop st (skinPressStep cs t) rest ∧
      (skinPressStep cs t).setTimer = t) := by
  refine ⟨fun st cs => rfl, ?_, ?_, ?_, ?_⟩
  · intro st cs t hold rest h
    simp only [doConfigLoop]
    rw [if_neg (not_lt.mpr h)]
    rfl
  · intro st cs t rest h
    simp only [doConfigLoop]
    rw [if_neg (not_lt.mpr h)]
    rfl
  · intro st cs t hold rest ht hh
    constructor
    · simp only [doConfigLoop]
      rw [if_pos ht, if_pos hh]
    · rfl
  · intro st cs t rest ht
    constructor
    · simp only [doConfigLoop]
      rw [if_pos ht]
    · rfl

/-- Witness for C9: a set press arriving exactly at the 30000ms deadline
is not handled and the loop powers off; a skin press at 100ms is handled
and resets the window to 100. -/
theorem c9_inactivity_timeout_witness :
    (doConfigLoop 3
      { setTimer := 0, spfIndex := 1, tempSkinType := 3, skinTypeNotPressed := true }
      [CEvent.setPress 30000 10]).state = DeviceState.powerOff ∧
    (doConfigLoop 3
      { setTimer := 0, spfIndex := 1, tempSkinType := 3, skinTypeNotPressed := true }
      [CEvent.skinPress 100] =
      doConfigLoop 3
        (skinPressStep
          { setTimer := 0, spfIndex := 1, tempSkinType := 3, skinTypeNotPressed := true }
          100) []) ∧
    (skinPressStep
      { setTimer := 0, spfIndex := 1, tempSkinType := 3, skinTypeNotPressed := true }
      100).setTimer = 100 :=
  ⟨c9_inactivity_timeout.2.1 3 _ 30000 10 [] (by decide),
   (c9_inactivity_timeout.2.2.2.2 3 _ 100 [] (by decide)).1,
   (c9_inactivity_timeout.2.2.2.2 3 _ 100 [] (by decide)).2⟩

/-- C10: the PowerOff case of the loop powers the sensor down and resets
the running timer before sleeping (the effect trace lists them ahead of
the sleep), and its only exit sets the state to Config — never Running
or Completed. -/
theorem c10_power_off_exit :
    ∀ s : RunState,
      (powerOffCase s).1.state = DeviceState.config ∧
      (powerOffCase s).1.state ≠ DeviceState.running ∧
      (powerOffCase s).1.state ≠ DeviceState.completed ∧
      (powerOffCase s).1.runningTimer = 0 ∧
      (powerOffCase s).2 =
        [Effect.sensorPowerOff, Effect.timerReset, Effect.shutdownTone,
         Effect.sleep] :=
  fun s => ⟨rfl, by simp [powerOffCase], by simp [powerOffCase], rfl, rfl⟩

end Sunburn
